import Mathlib

/-!
Verification of the server-lifecycle orchestration core of this repository.

The orchestration core itself (Orchestrator, LifecycleStateMachine,
AdmissionController, ProgressChannel) ships outside the files available
here; only its tests (`jupyterhub/tests/test_api.py`) and one API handler
(`jupyterhub/apihandlers/hub.py`) are present.  The lifecycle operations
below are therefore modelled from the specification's operational
descriptions (sections 4.1–4.4 and 6), and checked against the behaviour
pinned down by the tests.  `ShutdownAPIHandler.post` is embedded directly
from `jupyterhub/apihandlers/hub.py`.
-/

namespace Orchestration

/-- The five lifecycle states of a server record (spec §4.1). -/
inductive SState
  | stopped
  | pending_spawn
  | running
  | pending_stop
  | failed
deriving DecidableEq, Repr

/-- Modelled from the spec: §3 ServerRecord.  `url` is the empty string when
no url is set; `ever_spawned` records whether a spawn was ever requested for
this record (needed for the `subscribe_progress` NotFound rule of §6);
`failure_reason` retains the driver's failure message (§7);
`last_activity` is an abstract timestamp. -/
structure ServerRecord where
  state : SState
  url : String
  last_activity : Nat
  ever_spawned : Bool
  failure_reason : Option String
deriving DecidableEq, Repr

/-- A record as lazily created on first reference (spec §3): stopped, no url. -/
def freshRecord : ServerRecord :=
  { state := SState.stopped, url := "", last_activity := 0,
    ever_spawned := false, failure_reason := none }

/-- Keys are (user id, server name); the name may be the empty string. -/
abbrev Key := Nat × String

/-- Modelled from the spec: §2/§5 system state — the registry of records,
the two admission limits (none = unbounded), the multiset of ProcessDriver
start and stop invocations (to count driver calls), and the proxy route
table (key ↦ target url). -/
structure Sys where
  records : List (Key × ServerRecord)
  spawn_limit : Option Nat
  active_limit : Option Nat
  driver_starts : List Key
  driver_stops : List Key
  routes : List (Key × String)
deriving DecidableEq, Repr

/-- The initial system: empty registry, given admission limits. -/
def init (sl al : Option Nat) : Sys :=
  { records := [], spawn_limit := sl, active_limit := al,
    driver_starts := [], driver_stops := [], routes := [] }

def lookupRec (recs : List (Key × ServerRecord)) (k : Key) : Option ServerRecord :=
  (recs.find? (fun p => decide (p.1 = k))).map (fun p => p.2)

def updateRec (recs : List (Key × ServerRecord)) (k : Key)
    (f : ServerRecord → ServerRecord) : List (Key × ServerRecord) :=
  recs.map (fun p => if p.1 = k then (k, f p.2) else p)

/-- Number of records holding a `spawning` admission ticket (spec §4.2):
those currently in `pending_spawn`. -/
def spawningCount (recs : List (Key × ServerRecord)) : Nat :=
  (recs.filter (fun p => decide (p.2.state = SState.pending_spawn))).length

/-- Number of records holding an `active` admission ticket (spec §4.2, §4.1):
acquired on spawn success, released when a stop completes — so `running`
and `pending_stop` records hold one. -/
def activeCount (recs : List (Key × ServerRecord)) : Nat :=
  (recs.filter (fun p =>
    decide (p.2.state = SState.running ∨ p.2.state = SState.pending_stop))).length

/-- Outcomes of `request_spawn` (spec §6, §7). -/
inductive SpawnResult
  | Accepted
  | AlreadyRunning
  | Conflict
  | CapacityExceeded
deriving DecidableEq, Repr

/-- Outcomes of `request_stop` (spec §6). -/
inductive StopResult
  | Accepted
  | AlreadyStopped
deriving DecidableEq, Repr

/-- Transition applied when a spawn is admitted (spec §4.1):
enter `pending_spawn`; `url` is only set when running; a fresh spawn
clears any retained failure. -/
def startSpawn (r : ServerRecord) : ServerRecord :=
  { r with state := SState.pending_spawn, url := "",
           ever_spawned := true, failure_reason := none }

/-- Transition on driver start success (spec §4.1): enter `running` at `u`. -/
def spawnSuccess (u : String) (r : ServerRecord) : ServerRecord :=
  { r with state := SState.running, url := u }

/-- Transition on driver start failure (spec §4.1, §7): enter `failed`,
retain the reason. -/
def spawnFailure (reason : String) (r : ServerRecord) : ServerRecord :=
  { r with state := SState.failed, url := "", failure_reason := some reason }

/-- Post-hoc active-cap enforcement (spec §4.1): the newly spawned process
is stopped again and the record transitions to `failed`. -/
def postHocFail (r : ServerRecord) : ServerRecord :=
  { r with state := SState.failed, url := "" }

/-- Transition into `pending_stop` (spec §4.1); `url` is cleared only when
the stop completes. -/
def toPendingStop (r : ServerRecord) : ServerRecord :=
  { r with state := SState.pending_stop }

/-- Transition when the driver's stop completes (spec §4.1): `stopped`,
`url` cleared. -/
def finishStop (r : ServerRecord) : ServerRecord :=
  { r with state := SState.stopped, url := "" }

/-- Admission pre-check (spec §4.1, §4.2): the `spawning` cap bounds in-flight
spawns, and the `active` cap is checked before starting whenever possible
(counting held active tickets plus in-flight spawns that will claim one). -/
def admissionOk (sys : Sys) : Bool :=
  (match sys.spawn_limit with
   | none => true
   | some n => decide (spawningCount sys.records < n)) &&
  (match sys.active_limit with
   | none => true
   | some n => decide (activeCount sys.records + spawningCount sys.records < n))

/-- Lazy creation on first reference (spec §3): a missing record is added
to the registry in the `stopped` state. -/
def spawnInsert (sys : Sys) (k : Key) : Sys :=
  if (lookupRec sys.records k).isNone
  then { sys with records := sys.records ++ [(k, freshRecord)] }
  else sys

/-- Modelled from the spec: §4.1 `start` / §6 `request_spawn`.  The record is
created lazily on first reference.  `Conflict` while `pending_stop`;
idempotent success while `running`; de-duplicated while `pending_spawn`
(no second driver start); otherwise admission is checked and, if granted,
the record enters `pending_spawn` and the driver's start is invoked. -/
def request_spawn (sys : Sys) (k : Key) : Sys × SpawnResult :=
  match ((lookupRec sys.records k).getD freshRecord).state with
  | SState.pending_stop => (spawnInsert sys k, SpawnResult.Conflict)
  | SState.running => (spawnInsert sys k, SpawnResult.AlreadyRunning)
  | SState.pending_spawn => (spawnInsert sys k, SpawnResult.Accepted)
  | _ =>
    if admissionOk (spawnInsert sys k) then
      ({ spawnInsert sys k with
           records := updateRec (spawnInsert sys k).records k startSpawn,
           driver_starts := k :: (spawnInsert sys k).driver_starts },
       SpawnResult.Accepted)
    else (spawnInsert sys k, SpawnResult.CapacityExceeded)

/-- Modelled from the spec: §4.1 `stop` / §6 `request_stop`.  Idempotent on
`stopped`/`failed`; de-duplicated while `pending_stop` (no second driver
stop); cancels an in-flight spawn and heads toward `pending_stop`; from
`running`, removes the route before dispatching the driver's stop. -/
def request_stop (sys : Sys) (k : Key) : Sys × StopResult :=
  match lookupRec sys.records k with
  | none => (sys, StopResult.AlreadyStopped)
  | some r =>
    match r.state with
    | SState.stopped => (sys, StopResult.AlreadyStopped)
    | SState.failed => (sys, StopResult.AlreadyStopped)
    | SState.pending_stop => (sys, StopResult.Accepted)
    | SState.pending_spawn =>
      ({ sys with records := updateRec sys.records k toPendingStop,
                  driver_stops := k :: sys.driver_stops },
       StopResult.Accepted)
    | SState.running =>
      ({ sys with records := updateRec sys.records k toPendingStop,
                  driver_stops := k :: sys.driver_stops,
                  routes := sys.routes.filter (fun e => decide (e.1 ≠ k)) },
       StopResult.Accepted)

/-- Modelled from the spec: completion of the driver's start call with
success at `u` (spec §4.1).  Only meaningful while the record is still
`pending_spawn` (a cancelled spawn's late result is ignored).  On success
the `active` ticket is claimed — failing closed if the active cap is
exceeded at this point — and the route is registered. -/
def spawn_ok (sys : Sys) (k : Key) (u : String) : Sys :=
  match lookupRec sys.records k with
  | none => sys
  | some r =>
    if r.state = SState.pending_spawn then
      if (match sys.active_limit with
          | none => true
          | some n => decide (activeCount sys.records < n)) then
        { sys with records := updateRec sys.records k (spawnSuccess u),
                   routes := sys.routes ++ [(k, u)] }
      else
        { sys with records := updateRec sys.records k postHocFail,
                   driver_stops := k :: sys.driver_stops }
    else sys

/-- Modelled from the spec: completion of the driver's start call with a
failure (spec §4.1, §7): `failed`, reason retained for later inspection. -/
def spawn_fail (sys : Sys) (k : Key) (reason : String) : Sys :=
  match lookupRec sys.records k with
  | none => sys
  | some r =>
    if r.state = SState.pending_spawn then
      { sys with records := updateRec sys.records k (spawnFailure reason) }
    else sys

/-- Modelled from the spec: completion of the driver's stop call
(spec §4.1): `stopped`, `url` cleared, tickets released. -/
def stop_done (sys : Sys) (k : Key) : Sys :=
  match lookupRec sys.records k with
  | none => sys
  | some r =>
    if r.state = SState.pending_stop then
      { sys with records := updateRec sys.records k finishStop }
    else sys

/-- The observable events of a spawn/stop sequence: the two API requests and
the three driver completions. -/
inductive Op
  | reqSpawn (k : Key)
  | reqStop (k : Key)
  | spawnOk (k : Key) (u : String)
  | spawnFail (k : Key) (reason : String)
  | stopDone (k : Key)
deriving DecidableEq, Repr

def step (sys : Sys) (op : Op) : Sys :=
  match op with
  | Op.reqSpawn k => (request_spawn sys k).1
  | Op.reqStop k => (request_stop sys k).1
  | Op.spawnOk k u => spawn_ok sys k u
  | Op.spawnFail k reason => spawn_fail sys k reason
  | Op.stopDone k => stop_done sys k

def run (sys : Sys) (ops : List Op) : Sys :=
  ops.foldl step sys

/-- Modelled from the spec: §6 `record_activity` — monotonic; a missing
record is reported (the API answers "No such server"), an older timestamp
is a silent no-op.  Returns whether the record was found. -/
def record_activity (sys : Sys) (k : Key) (t : Nat) : Sys × Bool :=
  match lookupRec sys.records k with
  | none => (sys, false)
  | some _ =>
    ({ sys with
        records := updateRec sys.records k
          (fun r => { r with last_activity := max r.last_activity t }) },
     true)

/-- The per-record invariant under scrutiny: `url` is populated exactly for
a running server, except that a `pending_stop` record may still carry the
url it had while running (it is cleared when the stop completes). -/
def RecordInv (r : ServerRecord) : Prop :=
  (r.state = SState.running → r.url ≠ "") ∧
  (r.state = SState.stopped ∨ r.state = SState.pending_spawn ∨
     r.state = SState.failed → r.url = "")

/-- Registry-wide form of `RecordInv`. -/
def RecsInv (recs : List (Key × ServerRecord)) : Prop :=
  ∀ p ∈ recs, RecordInv p.2

/-- One flag per lifecycle state; a record is in `s` precisely when the
matching flag is set. -/
def stateFlags (s : SState) : List Bool :=
  [decide (s = SState.stopped), decide (s = SState.pending_spawn),
   decide (s = SState.running), decide (s = SState.pending_stop),
   decide (s = SState.failed)]

/-- Exactly one of the five lifecycle states holds. -/
def exactlyOneState (s : SState) : Prop :=
  (stateFlags s).count true = 1

/-- Well-formed driver behaviour: a successful start reports a non-empty
url (the ProcessDriver contract of spec §6, `start → success(url)`). -/
def wfOps (ops : List Op) : Prop :=
  ∀ k u, Op.spawnOk k u ∈ ops → u ≠ ""

/-- A progress event (spec §3): progress value, message, optional html
message and url, and the terminal markers seen in the event stream. -/
structure ProgressEvent where
  progress : Nat
  message : String
  html_message : Option String
  url : Option String
  ready : Bool
  failed : Bool
deriving DecidableEq, Repr

/-- The real outcome of a spawn operation, as reflected to progress
readers (spec §4.4): ready at a url, or failed with a reason. -/
inductive Outcome
  | ready (u : String)
  | failedOut (reason : String)
deriving DecidableEq, Repr

/-- The synthetic terminal progress event for an outcome (spec §4.4), with
the shapes pinned by `test_spawn_progress` and `test_progress_bad`. -/
def terminalEvent : Outcome → ProgressEvent
  | Outcome.ready u =>
    { progress := 100, message := "Server ready at " ++ u,
      html_message :=
        some ("Server ready at <a href=\"" ++ u ++ "\">" ++ u ++ "</a>"),
      url := some u, ready := true, failed := false }
  | Outcome.failedOut reason =>
    { progress := 100, message := "Spawn failed: " ++ reason,
      html_message := none, url := none, ready := false, failed := true }

/-- Modelled from the spec: §4.4 ProgressChannel cutoff.  `events` is the
driver's own progress sequence, `cutoff` the number of its events yielded
before the owning operation reached its terminal outcome.  Later driver
events are discarded and a single synthetic terminal event reflecting the
real outcome is appended if the delivered part had not already reached
100. -/
def deliverProgress (events : List ProgressEvent) (cutoff : Nat)
    (outcome : Outcome) : List ProgressEvent :=
  let before := events.take cutoff
  if before.any (fun e => decide (e.progress = 100)) then before
  else before ++ [terminalEvent outcome]

/-- Modelled from the spec: §6 `subscribe_progress`, with the NotFound rule
pinned by the tests (`test_progress_not_started`: a record whose spawn was
requested and then stopped answers NotFound; `test_progress_not_found`:
missing records answer NotFound; `test_progress_bad`/`test_progress_ready`:
already-failed and already-ready spawns deliver their terminal event).
A `pending_spawn` record attaches to the live channel, whose events arrive
as the driver produces them (represented by the empty prefix here). -/
def subscribe_progress (sys : Sys) (k : Key) : Option (List ProgressEvent) :=
  match lookupRec sys.records k with
  | none => none
  | some r =>
    match r.state with
    | SState.stopped => none
    | SState.pending_stop => none
    | SState.pending_spawn => some []
    | SState.running => some [terminalEvent (Outcome.ready r.url)]
    | SState.failed =>
      some [terminalEvent (Outcome.failedOut (r.failure_reason.getD ""))]

/-! Concrete scenarios, mirroring the traces driven by the tests. -/

def kA : Key := (1, "")
def kB : Key := (2, "")
def kC : Key := (3, "")

/-- The spawning-cap scenario of `test_spawn_limit`: cap 2, no active cap. -/
def c3r1 : Sys × SpawnResult := request_spawn (init (some 2) none) kA
def c3r2 : Sys × SpawnResult := request_spawn c3r1.1 kB
def c3r3 : Sys × SpawnResult := request_spawn c3r2.1 kC

/-- The active-cap scenario of `test_active_server_limit`: cap 2, two
records spawned to completion. -/
def c4base : Sys :=
  run (init none (some 2))
    [Op.reqSpawn kA, Op.spawnOk kA "http://a",
     Op.reqSpawn kB, Op.spawnOk kB "http://b"]

def c4rej : Sys × SpawnResult := request_spawn c4base kC

/-- `c4rej` after the first record's stop has settled. -/
def c4freed : Sys := run c4rej.1 [Op.reqStop kA, Op.stopDone kA]

/-- A spawn brought to `running` and then asked to stop: the record sits in
`pending_stop` with its url still populated. -/
def c1cex : Sys :=
  run (init none none)
    [Op.reqSpawn kA, Op.spawnOk kA "http://x", Op.reqStop kA]

/-- The record reached by `[reqSpawn kA, spawnOk kA "http://x"]`. -/
def c1wRec : ServerRecord := spawnSuccess "http://x" (startSpawn freshRecord)

/-- A full spawn/stop cycle: spawn requested, completed, stopped, settled. -/
def c8cex : Sys :=
  run (init none none)
    [Op.reqSpawn kA, Op.spawnOk kA "http://x", Op.reqStop kA, Op.stopDone kA]

/-- One record mid-spawn. -/
def c6wsys : Sys := run (init none none) [Op.reqSpawn kA]

/-- One record mid-stop (after running at "http://x"). -/
def c7wsys : Sys :=
  run (init none none)
    [Op.reqSpawn kA, Op.spawnOk kA "http://x", Op.reqStop kA]

/-- One record mid-spawn, for the activity witness. -/
def c9wsys : Sys := run (init none none) [Op.reqSpawn kA]

/-- The record held by `c9wsys` at `kA`. -/
def c9wRec : ServerRecord := startSpawn freshRecord

/-- A driver progress sequence that would keep emitting events after the
spawn completes (the shape of `progress_forever` in the cutoff test). -/
def c5events : List ProgressEvent :=
  [{ progress := 0, message := "Server requested", html_message := none,
     url := none, ready := false, failed := false },
   { progress := 1, message := "Stage 1", html_message := none,
     url := none, ready := false, failed := false },
   { progress := 2, message := "Stage 2", html_message := none,
     url := none, ready := false, failed := false }]

end Orchestration

namespace ShutdownHandler

/-- A JSON scalar value as delivered by `get_json_body` for the fields of
a shutdown request body. -/
inductive JsonVal
  | jbool (b : Bool)
  | jnum (n : Int)
  | jstr (s : String)
  | jnull
deriving DecidableEq, Repr

/-- Python's `v in {True, False}`: under Python equality the numbers 1 and
0 are equal to `True` and `False` respectively, so they pass the check in
`ShutdownAPIHandler.post`. -/
def inTrueFalse : JsonVal → Bool
  | JsonVal.jbool _ => true
  | JsonVal.jnum n => decide (n = 0) || decide (n = 1)
  | _ => false

/-- The `JupyterHub.instance()` state touched by `ShutdownAPIHandler.post`:
the two cleanup flags (stored as the raw body values, as the handler
assigns them). -/
structure HubApp where
  cleanup_proxy : JsonVal
  cleanup_servers : JsonVal
deriving DecidableEq, Repr

/-- The handler's observable response: an HTTPError status, or a finished
response with status and message. -/
inductive Response
  | httpError (status : Nat)
  | finished (status : Nat) (message : String)
deriving DecidableEq, Repr

def lookupField (data : List (String × JsonVal)) (fld : String) : Option JsonVal :=
  (data.find? (fun p => decide (p.1 = fld))).map (fun p => p.2)

/-- `ShutdownAPIHandler.post` (src/jupyterhub/apihandlers/hub.py, lines
15–51).  `data` is the parsed JSON body (`none` for no body); an empty
object is falsy in Python, so the `if data:` block is skipped.  The
`proxy` field is validated and assigned first, then `servers`; a failed
validation raises HTTPError 400 before `app.stop()` is reached.  The
returned Bool records whether `app.stop()` was called. -/
def shutdown_post (app : HubApp) (data : Option (List (String × JsonVal))) :
    HubApp × Response × Bool :=
  let afterProxy : HubApp × Option Response :=
    match data with
    | none => (app, none)
    | some d =>
      if d.isEmpty then (app, none)
      else
        match lookupField d "proxy" with
        | none => (app, none)
        | some v =>
          if inTrueFalse v then ({ app with cleanup_proxy := v }, none)
          else (app, some (Response.httpError 400))
  match afterProxy with
  | (app1, some resp) => (app1, resp, false)
  | (app1, none) =>
    let afterServers : HubApp × Option Response :=
      match data with
      | none => (app1, none)
      | some d =>
        if d.isEmpty then (app1, none)
        else
          match lookupField d "servers" with
          | none => (app1, none)
          | some v =>
            if inTrueFalse v then ({ app1 with cleanup_servers := v }, none)
            else (app1, some (Response.httpError 400))
    match afterServers with
    | (app2, some resp) => (app2, resp, false)
    | (app2, none) =>
      (app2, Response.finished 202 "Shutting down Hub", true)

/-- A present field passes validation iff its value is Python-equal to
True or False. -/
def fieldOk (data : List (String × JsonVal)) (fld : String) : Bool :=
  match lookupField data fld with
  | none => true
  | some v => inTrueFalse v

/-- The body lets the handler reach `app.stop()` iff it is absent, an empty
object, or every present `proxy`/`servers` field is Python-equal to a
boolean. -/
def bodyOk (data : Option (List (String × JsonVal))) : Bool :=
  match data with
  | none => true
  | some d => d.isEmpty || (fieldOk d "proxy" && fieldOk d "servers")

/-- The value a cleanup flag ends up with when the handler finishes:
the body's field if it was processed, else the previous value. -/
def fieldVal (data : Option (List (String × JsonVal))) (fld : String)
    (dflt : JsonVal) : JsonVal :=
  match data with
  | none => dflt
  | some d => if d.isEmpty then dflt else (lookupField d fld).getD dflt

/-- A hub whose cleanup flags start at their defaults. -/
def hubApp0 : HubApp :=
  { cleanup_proxy := JsonVal.jbool true, cleanup_servers := JsonVal.jbool true }

end ShutdownHandler

namespace Orchestration

theorem lookupRec_update (recs : List (Key × ServerRecord)) (k : Key)
    (f : ServerRecord → ServerRecord) :
    lookupRec (updateRec recs k f) k = (lookupRec recs k).map f := by
  induction recs with
  | nil => rfl
  | cons a t ih =>
    by_cases h : a.1 = k
    · simp [lookupRec, updateRec, List.find?_cons_of_pos, h]
    · simp only [lookupRec, updateRec, List.map_cons] at ih ⊢
      rw [if_neg h, List.find?_cons_of_neg, List.find?_cons_of_neg]
      · exact ih
      · simp [h]
      · simp [h]

theorem lookupRec_mem {recs : List (Key × ServerRecord)} {k : Key}
    {r : ServerRecord} (h : lookupRec recs k = some r) :
    ∃ p ∈ recs, p.2 = r := by
  unfold lookupRec at h
  obtain ⟨p, hf, hp⟩ := Option.map_eq_some'.mp h
  exact ⟨p, List.mem_of_find?_eq_some hf, hp⟩

theorem recordInv_fresh : RecordInv freshRecord := by
  simp [RecordInv, freshRecord]

theorem recordInv_startSpawn (r : ServerRecord) : RecordInv (startSpawn r) := by
  simp [RecordInv, startSpawn]

theorem recordInv_spawnSuccess (u : String) (hu : u ≠ "") (r : ServerRecord) :
    RecordInv (spawnSuccess u r) := by
  simp [RecordInv, spawnSuccess, hu]

theorem recordInv_spawnFailure (m : String) (r : ServerRecord) :
    RecordInv (spawnFailure m r) := by
  simp [RecordInv, spawnFailure]

theorem recordInv_postHocFail (r : ServerRecord) : RecordInv (postHocFail r) := by
  simp [RecordInv, postHocFail]

theorem recordInv_toPendingStop (r : ServerRecord) :
    RecordInv (toPendingStop r) := by
  simp [RecordInv, toPendingStop]

theorem recordInv_finishStop (r : ServerRecord) : RecordInv (finishStop r) := by
  simp [RecordInv, finishStop]

theorem recsInv_updateRec {recs : List (Key × ServerRecord)} {k : Key}
    {f : ServerRecord → ServerRecord} (hf : ∀ r, RecordInv (f r))
    (h : RecsInv recs) : RecsInv (updateRec recs k f) := by
  intro p hp
  simp only [updateRec, List.mem_map] at hp
  obtain ⟨q, hq, hpq⟩ := hp
  by_cases hk : q.1 = k
  · rw [if_pos hk] at hpq
    rw [← hpq]
    exact hf q.2
  · rw [if_neg hk] at hpq
    rw [← hpq]
    exact h q hq

theorem recsInv_append {recs : List (Key × ServerRecord)} {k : Key}
    {r : ServerRecord} (h : RecsInv recs) (hr : RecordInv r) :
    RecsInv (recs ++ [(k, r)]) := by
  intro p hp
  rcases List.mem_append.mp hp with h1 | h2
  · exact h p h1
  · simp only [List.mem_singleton] at h2
    rw [h2]
    exact hr

theorem recsInv_spawnInsert (sys : Sys) (k : Key) (h : RecsInv sys.records) :
    RecsInv (spawnInsert sys k).records := by
  unfold spawnInsert
  split
  · exact recsInv_append h recordInv_fresh
  · exact h

theorem recsInv_request_spawn (sys : Sys) (k : Key) (h : RecsInv sys.records) :
    RecsInv (request_spawn sys k).1.records := by
  have hins := recsInv_spawnInsert sys k h
  unfold request_spawn
  split
  · exact hins
  · exact hins
  · exact hins
  · split
    · exact recsInv_updateRec (fun r => recordInv_startSpawn r) hins
    · exact hins

theorem recsInv_request_stop (sys : Sys) (k : Key) (h : RecsInv sys.records) :
    RecsInv (request_stop sys k).1.records := by
  unfold request_stop
  split
  · exact h
  · split
    · exact h
    · exact h
    · exact h
    · exact recsInv_updateRec (fun r => recordInv_toPendingStop r) h
    · exact recsInv_updateRec (fun r => recordInv_toPendingStop r) h

theorem recsInv_spawn_ok (sys : Sys) (k : Key) (u : String) (hu : u ≠ "")
    (h : RecsInv sys.records) : RecsInv (spawn_ok sys k u).records := by
  unfold spawn_ok
  split
  · exact h
  · split
    · split
      · exact recsInv_updateRec (fun r => recordInv_spawnSuccess u hu r) h
      · exact recsInv_updateRec (fun r => recordInv_postHocFail r) h
    · exact h

theorem recsInv_spawn_fail (sys : Sys) (k : Key) (m : String)
    (h : RecsInv sys.records) : RecsInv (spawn_fail sys k m).records := by
  unfold spawn_fail
  split
  · exact h
  · split
    · exact recsInv_updateRec (fun r => recordInv_spawnFailure m r) h
    · exact h

theorem recsInv_stop_done (sys : Sys) (k : Key) (h : RecsInv sys.records) :
    RecsInv (stop_done sys k).records := by
  unfold stop_done
  split
  · exact h
  · split
    · exact recsInv_updateRec (fun r => recordInv_finishStop r) h
    · exact h

theorem recsInv_step (sys : Sys) (op : Op) (h : RecsInv sys.records)
    (hop : ∀ k u, op = Op.spawnOk k u → u ≠ "") :
    RecsInv (step sys op).records := by
  cases op with
  | reqSpawn k => exact recsInv_request_spawn sys k h
  | reqStop k => exact recsInv_request_stop sys k h
  | spawnOk k u => exact recsInv_spawn_ok sys k u (hop k u rfl) h
  | spawnFail k m => exact recsInv_spawn_fail sys k m h
  | stopDone k => exact recsInv_stop_done sys k h

theorem recsInv_run (ops : List Op) :
    ∀ sys : Sys, RecsInv sys.records → wfOps ops →
      RecsInv (run sys ops).records := by
  induction ops with
  | nil => intro sys h _; exact h
  | cons o t ih =>
    intro sys h hwf
    have h1 : RecsInv (step sys o).records := by
      refine recsInv_step sys o h ?_
      intro k u he
      refine hwf k u ?_
      rw [he] at *
      exact List.mem_cons_self _ _
    exact ih (step sys o) h1 (fun k u hm => hwf k u (List.mem_cons_of_mem _ hm))

theorem exactlyOneState_all (s : SState) : exactlyOneState s := by
  cases s <;> rfl

/-- C1 (counterexample): the claim "url is non-empty iff the state is
running" fails at a reachable state.  After `request_spawn`, a successful
driver start and a `request_stop`, the record sits in `pending_stop` with
its url still set to "http://x": the url is cleared only when the stop
completes, so a non-running record carries a non-empty url. -/
theorem url_iff_running_cex :
    (lookupRec c1cex.records kA).map (fun r => (r.state, r.url))
      = some (SState.pending_stop, "http://x") ∧
    ("http://x" : String) ≠ "" ∧
    SState.pending_stop ≠ SState.running := by
  decide

/-- C1 (amended): at every reachable point of any spawn/stop sequence in
which the driver reports non-empty urls, every record is in exactly one of
the five states; its url is non-empty whenever the state is running, and
its url is empty whenever the state is stopped, pending_spawn or failed —
in particular after a stop settles.  (While `pending_stop`, a previously
running record may still carry its url until the stop completes.) -/
theorem lifecycle_state_url_invariant (sl al : Option Nat) (ops : List Op)
    (hwf : wfOps ops) (k : Key) (r : ServerRecord)
    (hr : lookupRec (run (init sl al) ops).records k = some r) :
    exactlyOneState r.state ∧
    (r.state = SState.running → r.url ≠ "") ∧
    (r.state = SState.stopped ∨ r.state = SState.pending_spawn ∨
       r.state = SState.failed → r.url = "") := by
  have hinit : RecsInv (init sl al).records := by
    intro p hp
    simp [init] at hp
  have hinv := recsInv_run ops (init sl al) hinit hwf
  obtain ⟨p, hp, hpr⟩ := lookupRec_mem hr
  have hri := hinv p hp
  rw [hpr] at hri
  exact ⟨exactlyOneState_all r.state, hri.1, hri.2⟩

/-- Witness for C1's theorem at the trace `[reqSpawn kA, spawnOk kA
"http://x"]`, whose record at `kA` is `c1wRec` (running at "http://x"). -/
theorem lifecycle_state_url_invariant_witness :
    exactlyOneState c1wRec.state ∧
    (c1wRec.state = SState.running → c1wRec.url ≠ "") ∧
    (c1wRec.state = SState.stopped ∨ c1wRec.state = SState.pending_spawn ∨
       c1wRec.state = SState.failed → c1wRec.url = "") := by
  refine lifecycle_state_url_invariant none none
    [Op.reqSpawn kA, Op.spawnOk kA "http://x"] ?_ kA c1wRec ?_
  · intro k u hm
    simp only [List.mem_cons, List.not_mem_nil, or_false] at hm
    rcases hm with hm | hm
    · exact absurd hm (by simp)
    · rw [(Op.spawnOk.injEq _ _ _ _).mp hm |>.2]
      decide
  · decide

/-- C2: for any single record, while it is in `pending_spawn` a repeated
`start` leaves the whole system untouched (in particular no second driver
start) and is accepted, and while it is in `pending_stop` a repeated
`stop` leaves the system untouched (no second driver stop) and is
accepted; every continuation of the trace therefore observes the same
eventual outcome as the first caller. -/
theorem dedup_pending_operations (sys : Sys) (k : Key) (r : ServerRecord)
    (h : lookupRec sys.records k = some r) :
    (r.state = SState.pending_spawn →
      request_spawn sys k = (sys, SpawnResult.Accepted) ∧
      (request_spawn sys k).1.driver_starts = sys.driver_starts ∧
      ∀ rest, run (request_spawn sys k).1 rest = run sys rest) ∧
    (r.state = SState.pending_stop →
      request_stop sys k = (sys, StopResult.Accepted) ∧
      (request_stop sys k).1.driver_stops = sys.driver_stops ∧
      ∀ rest, run (request_stop sys k).1 rest = run sys rest) := by
  constructor
  · intro hs
    have e1 : request_spawn sys k = (sys, SpawnResult.Accepted) := by
      simp [request_spawn, spawnInsert, h, hs]
    exact ⟨e1, by rw [e1], fun rest => by rw [e1]⟩
  · intro hs
    have e2 : request_stop sys k = (sys, StopResult.Accepted) := by
      simp [request_stop, h, hs]
    exact ⟨e2, by rw [e2], fun rest => by rw [e2]⟩

/-- Witness for C2's theorem, at two single-record systems: `c6wsys` holds
only `kA` mid-spawn (the double `request_spawn` scenario), `c7wsys` holds
only `kA` mid-stop (the double `request_stop` scenario). -/
theorem dedup_pending_operations_witness :
    (request_spawn c6wsys kA = (c6wsys, SpawnResult.Accepted) ∧
     (request_spawn c6wsys kA).1.driver_starts = c6wsys.driver_starts ∧
     ∀ rest, run (request_spawn c6wsys kA).1 rest = run c6wsys rest) ∧
    (request_stop c7wsys kA = (c7wsys, StopResult.Accepted) ∧
     (request_stop c7wsys kA).1.driver_stops = c7wsys.driver_stops ∧
     ∀ rest, run (request_stop c7wsys kA).1 rest = run c7wsys rest) :=
  ⟨(dedup_pending_operations c6wsys kA c9wRec (by decide)).1 (by decide),
   (dedup_pending_operations c7wsys kA (toPendingStop c1wRec)
      (by decide)).2 (by decide)⟩

/-- C3: with the spawning cap at 2, three `request_spawn` calls on three
distinct stopped records yield Accepted, Accepted, CapacityExceeded; after
the first pending spawn resolves to running, a new `request_spawn` for the
rejected record is accepted. -/
theorem spawning_cap_scenario :
    c3r1.2 = SpawnResult.Accepted ∧
    c3r2.2 = SpawnResult.Accepted ∧
    c3r3.2 = SpawnResult.CapacityExceeded ∧
    (lookupRec (spawn_ok c3r3.1 kA "http://a").records kA).map
        (fun r => r.state) = some SState.running ∧
    (request_spawn (spawn_ok c3r3.1 kA "http://a") kC).2
      = SpawnResult.Accepted := by
  decide

/-- C4: with the active cap at 2 and two records running, `request_spawn`
on a third record yields CapacityExceeded and leaves the active count at 2;
after one running record's stop settles the active count is 1, the next
`request_spawn` on the third record is accepted, and its completion brings
the active count back to 2. -/
theorem active_cap_scenario :
    activeCount c4base.records = 2 ∧
    c4rej.2 = SpawnResult.CapacityExceeded ∧
    activeCount c4rej.1.records = 2 ∧
    activeCount c4freed.records = 1 ∧
    (request_spawn c4freed kC).2 = SpawnResult.Accepted ∧
    activeCount
      (spawn_ok (request_spawn c4freed kC).1 kC "http://c").records = 2 := by
  decide

/-- C5: when the driver's progress sequence would emit events past the
point of spawn completion (`cutoff < events.length`) and the part already
delivered had not reached 100, the reader receives exactly the events
produced before the terminal outcome followed by one terminal event with
progress 100 reflecting the real outcome (ready at URL, or failed with
reason), and no event after that terminal event. -/
theorem progress_cutoff_truncation (events : List ProgressEvent)
    (cutoff : Nat) (outcome : Outcome) (hlen : cutoff < events.length)
    (hpre : ∀ e ∈ events.take cutoff, e.progress < 100) :
    deliverProgress events cutoff outcome
      = events.take cutoff ++ [terminalEvent outcome] ∧
    (terminalEvent outcome).progress = 100 ∧
    (deliverProgress events cutoff outcome).getLast?
      = some (terminalEvent outcome) ∧
    (deliverProgress events cutoff outcome).length = cutoff + 1 ∧
    (∀ u, outcome = Outcome.ready u →
       (terminalEvent outcome).ready = true ∧
       (terminalEvent outcome).url = some u) ∧
    (∀ m, outcome = Outcome.failedOut m →
       (terminalEvent outcome).failed = true) := by
  have hany : (events.take cutoff).any
      (fun e => decide (e.progress = 100)) = false := by
    rw [List.any_eq_false]
    intro e he
    simpa using Nat.ne_of_lt (hpre e he)
  have heq : deliverProgress events cutoff outcome
      = events.take cutoff ++ [terminalEvent outcome] := by
    simp [deliverProgress, hany]
  have hterm : (terminalEvent outcome).progress = 100 := by
    cases outcome <;> rfl
  refine ⟨heq, hterm, ?_, ?_, ?_, ?_⟩
  · rw [heq]
    exact List.getLast?_concat _
  · rw [heq]
    simp [List.length_take, Nat.min_eq_left (Nat.le_of_lt hlen)]
  · intro u hu
    rw [hu]
    exact ⟨rfl, rfl⟩
  · intro m hm
    rw [hm]
    rfl

/-- Witness for C5's theorem on `c5events`, cut off after two events, with
the spawn ready at "http://u". -/
theorem progress_cutoff_truncation_witness :
    deliverProgress c5events 2 (Outcome.ready "http://u")
      = c5events.take 2 ++ [terminalEvent (Outcome.ready "http://u")] ∧
    (terminalEvent (Outcome.ready "http://u")).progress = 100 ∧
    (deliverProgress c5events 2 (Outcome.ready "http://u")).getLast?
      = some (terminalEvent (Outcome.ready "http://u")) ∧
    (deliverProgress c5events 2 (Outcome.ready "http://u")).length = 2 + 1 ∧
    (∀ u, Outcome.ready "http://u" = Outcome.ready u →
       (terminalEvent (Outcome.ready "http://u")).ready = true ∧
       (terminalEvent (Outcome.ready "http://u")).url = some u) ∧
    (∀ m, Outcome.ready "http://u" = Outcome.failedOut m →
       (terminalEvent (Outcome.ready "http://u")).failed = true) :=
  progress_cutoff_truncation c5events 2 (Outcome.ready "http://u")
    (by decide) (by decide)

/-- C6: `request_stop` on a record in `pending_spawn` is accepted, cancels
the spawn (the record moves to `pending_stop`, the route table is
untouched, and a late driver success for the cancelled attempt is ignored,
so no route is ever added for it); once the stop settles the record is
`stopped` with an empty url, and a subsequent `request_spawn` (with no
caps configured) is accepted. -/
theorem stop_while_spawning (sys : Sys) (k : Key) (r : ServerRecord)
    (h : lookupRec sys.records k = some r)
    (hs : r.state = SState.pending_spawn)
    (hsl : sys.spawn_limit = none) (hal : sys.active_limit = none) :
    (request_stop sys k).2 = StopResult.Accepted ∧
    lookupRec (request_stop sys k).1.records k = some (toPendingStop r) ∧
    (toPendingStop r).state = SState.pending_stop ∧
    (request_stop sys k).1.routes = sys.routes ∧
    (∀ u, spawn_ok (request_stop sys k).1 k u = (request_stop sys k).1) ∧
    lookupRec (stop_done (request_stop sys k).1 k).records k
      = some (finishStop (toPendingStop r)) ∧
    (finishStop (toPendingStop r)).state = SState.stopped ∧
    (finishStop (toPendingStop r)).url = "" ∧
    (request_spawn (stop_done (request_stop sys k).1 k) k).2
      = SpawnResult.Accepted := by
  have e1 : request_stop sys k
      = ({ sys with records := updateRec sys.records k toPendingStop,
                    driver_stops := k :: sys.driver_stops },
         StopResult.Accepted) := by
    simp [request_stop, h, hs]
  have l1 : lookupRec (request_stop sys k).1.records k
      = some (toPendingStop r) := by
    rw [e1]
    show lookupRec (updateRec sys.records k toPendingStop) k = _
    rw [lookupRec_update, h]
    rfl
  have e2 : ∀ u, spawn_ok (request_stop sys k).1 k u
      = (request_stop sys k).1 := by
    intro u
    simp [spawn_ok, l1, toPendingStop]
  have e3 : stop_done (request_stop sys k).1 k
      = { (request_stop sys k).1 with
            records := updateRec (request_stop sys k).1.records k finishStop } := by
    simp [stop_done, l1, toPendingStop]
  have l3 : lookupRec (stop_done (request_stop sys k).1 k).records k
      = some (finishStop (toPendingStop r)) := by
    rw [e3]
    show lookupRec (updateRec (request_stop sys k).1.records k finishStop) k = _
    rw [lookupRec_update, l1]
    rfl
  have hsl2 : (stop_done (request_stop sys k).1 k).spawn_limit = none := by
    rw [e3, e1]
    exact hsl
  have hal2 : (stop_done (request_stop sys k).1 k).active_limit = none := by
    rw [e3, e1]
    exact hal
  refine ⟨by rw [e1], l1, rfl, by rw [e1], e2, l3, rfl, rfl, ?_⟩
  simp [request_spawn, spawnInsert, l3, finishStop, toPendingStop,
        admissionOk, hsl2, hal2]

/-- Witness for C6's theorem: `c6wsys` has record `kA` mid-spawn and no
caps configured. -/
theorem stop_while_spawning_witness :
    (request_stop c6wsys kA).2 = StopResult.Accepted ∧
    lookupRec (request_stop c6wsys kA).1.records kA
      = some (toPendingStop c9wRec) ∧
    (toPendingStop c9wRec).state = SState.pending_stop ∧
    (request_stop c6wsys kA).1.routes = c6wsys.routes ∧
    (∀ u, spawn_ok (request_stop c6wsys kA).1 kA u
      = (request_stop c6wsys kA).1) ∧
    lookupRec (stop_done (request_stop c6wsys kA).1 kA).records kA
      = some (finishStop (toPendingStop c9wRec)) ∧
    (finishStop (toPendingStop c9wRec)).state = SState.stopped ∧
    (finishStop (toPendingStop c9wRec)).url = "" ∧
    (request_spawn (stop_done (request_stop c6wsys kA).1 kA) kA).2
      = SpawnResult.Accepted :=
  stop_while_spawning c6wsys kA c9wRec (by decide) (by decide)
    (by decide) (by decide)

/-- C7: `request_spawn` on a record in `pending_stop` fails with Conflict,
leaving the system untouched (in particular the driver's start is not
invoked); once the stop has settled, a subsequent `request_spawn` (with no
caps configured) is accepted. -/
theorem start_while_stopping (sys : Sys) (k : Key) (r : ServerRecord)
    (h : lookupRec sys.records k = some r)
    (hs : r.state = SState.pending_stop)
    (hsl : sys.spawn_limit = none) (hal : sys.active_limit = none) :
    request_spawn sys k = (sys, SpawnResult.Conflict) ∧
    (request_spawn sys k).1.driver_starts = sys.driver_starts ∧
    lookupRec (stop_done sys k).records k = some (finishStop r) ∧
    (finishStop r).state = SState.stopped ∧
    (request_spawn (stop_done sys k) k).2 = SpawnResult.Accepted := by
  have e1 : request_spawn sys k = (sys, SpawnResult.Conflict) := by
    simp [request_spawn, spawnInsert, h, hs]
  have e3 : stop_done sys k
      = { sys with records := updateRec sys.records k finishStop } := by
    simp [stop_done, h, hs]
  have l3 : lookupRec (stop_done sys k).records k = some (finishStop r) := by
    rw [e3]
    show lookupRec (updateRec sys.records k finishStop) k = _
    rw [lookupRec_update, h]
    rfl
  have hsl2 : (stop_done sys k).spawn_limit = none := by rw [e3]; exact hsl
  have hal2 : (stop_done sys k).active_limit = none := by rw [e3]; exact hal
  refine ⟨e1, by rw [e1], l3, rfl, ?_⟩
  simp [request_spawn, spawnInsert, l3, finishStop, admissionOk, hsl2, hal2]

/-- Witness for C7's theorem: `c7wsys` has record `kA` mid-stop (after
running at "http://x") and no caps configured. -/
theorem start_while_stopping_witness :
    request_spawn c7wsys kA = (c7wsys, SpawnResult.Conflict) ∧
    (request_spawn c7wsys kA).1.driver_starts = c7wsys.driver_starts ∧
    lookupRec (stop_done c7wsys kA).records kA
      = some (finishStop (toPendingStop c1wRec)) ∧
    (finishStop (toPendingStop c1wRec)).state = SState.stopped ∧
    (request_spawn (stop_done c7wsys kA) kA).2 = SpawnResult.Accepted :=
  start_while_stopping c7wsys kA (toPendingStop c1wRec) (by decide)
    (by decide) (by decide) (by decide)

/-- C8 (counterexample): in the reachable state `c8cex` a spawn HAS been
requested for record `kA` (`ever_spawned = true`), the record is currently
stopped, and `subscribe_progress` still answers NotFound — so NotFound is
not restricted to records for which no spawn was ever requested. -/
theorem subscribe_progress_stopped_cex :
    subscribe_progress c8cex kA = none ∧
    (lookupRec c8cex.records kA).map (fun r => (r.ever_spawned, r.state))
      = some (true, SState.stopped) := by
  decide

/-- C8 (amended): `subscribe_progress` answers NotFound exactly when the
record does not exist or currently has no spawn outcome to report (state
stopped, or stopping), regardless of whether a spawn was ever requested;
otherwise it returns an event sequence — for an already-failed spawn one
containing the terminal failed event with the retained reason, and for an
already-ready spawn one containing the terminal ready event at the
record's url. -/
theorem subscribe_progress_characterization (sys : Sys) (k : Key) :
    (subscribe_progress sys k = none ↔
      lookupRec sys.records k = none ∨
      ∃ r, lookupRec sys.records k = some r ∧
        (r.state = SState.stopped ∨ r.state = SState.pending_stop)) ∧
    (∀ r, lookupRec sys.records k = some r → r.state = SState.failed →
      subscribe_progress sys k
        = some [terminalEvent (Outcome.failedOut (r.failure_reason.getD ""))]) ∧
    (∀ r, lookupRec sys.records k = some r → r.state = SState.running →
      subscribe_progress sys k
        = some [terminalEvent (Outcome.ready r.url)]) := by
  refine ⟨?_, ?_, ?_⟩
  · cases hl : lookupRec sys.records k with
    | none => simp [subscribe_progress, hl]
    | some r => cases hst : r.state <;> simp [subscribe_progress, hl, hst]
  · intro r hl hst
    simp [subscribe_progress, hl, hst]
  · intro r hl hst
    simp [subscribe_progress, hl, hst]

/-- C9: `record_activity` on an existing record never errors, and stores
`max` of the previous timestamp and the reported one: a newer timestamp
updates `last_activity`, a stale one is a silent no-op leaving the record
unchanged. -/
theorem record_activity_monotonic (sys : Sys) (k : Key) (t : Nat)
    (r : ServerRecord) (h : lookupRec sys.records k = some r) :
    (record_activity sys k t).2 = true ∧
    lookupRec (record_activity sys k t).1.records k
      = some { r with last_activity := max r.last_activity t } ∧
    (r.last_activity ≤ t →
      lookupRec (record_activity sys k t).1.records k
        = some { r with last_activity := t }) ∧
    (t ≤ r.last_activity →
      lookupRec (record_activity sys k t).1.records k = some r) := by
  obtain ⟨st, u, la, ev, fr⟩ := r
  have e : (record_activity sys k t).1.records
      = updateRec sys.records k
          (fun q => { q with last_activity := max q.last_activity t }) := by
    simp [record_activity, h]
  have l : lookupRec (record_activity sys k t).1.records k
      = some { state := st, url := u, last_activity := max la t,
               ever_spawned := ev, failure_reason := fr } := by
    rw [e, lookupRec_update, h]
    rfl
  refine ⟨by simp [record_activity, h], l, ?_, ?_⟩
  · intro hle
    rw [l, Nat.max_eq_right hle]
  · intro hle
    rw [l, Nat.max_eq_left hle]

/-- Witness for C9's theorem: `c9wsys` holds `c9wRec` (last_activity 0) at
`kA`; reporting timestamp 5 stores `max 0 5`. -/
theorem record_activity_monotonic_witness :
    (record_activity c9wsys kA 5).2 = true ∧
    lookupRec (record_activity c9wsys kA 5).1.records kA
      = some { c9wRec with last_activity := max c9wRec.last_activity 5 } ∧
    (c9wRec.last_activity ≤ 5 →
      lookupRec (record_activity c9wsys kA 5).1.records kA
        = some { c9wRec with last_activity := 5 }) ∧
    (5 ≤ c9wRec.last_activity →
      lookupRec (record_activity c9wsys kA 5).1.records kA = some c9wRec) :=
  record_activity_monotonic c9wsys kA 5 c9wRec (by decide)

end Orchestration

namespace ShutdownHandler

/-- C10 (counterexample): the JSON number 1 is not the boolean true or
false, yet `shutdown_post` with body `{"proxy": 1}` responds 202 "Shutting
down Hub" and calls `app.stop()` — Python's `1 in {True, False}` is true,
so the handler does not answer 400 here. -/
theorem shutdown_nonboolean_cex :
    (shutdown_post hubApp0 (some [("proxy", JsonVal.jnum 1)])).2
      = (Response.finished 202 "Shutting down Hub", true) ∧
    JsonVal.jnum 1 ≠ JsonVal.jbool true ∧
    JsonVal.jnum 1 ≠ JsonVal.jbool false := by
  decide

/-- C10 (amended): `shutdown_post` calls `app.stop()` iff every present
`proxy`/`servers` field of the body is Python-equal to a boolean (the
booleans, or the numbers 1 and 0); otherwise it responds 400 without
calling stop; when the body is acceptable it responds 202 "Shutting down
Hub", having set each cleanup flag from the body when the field was
present. -/
theorem shutdown_post_characterization (app : HubApp)
    (data : Option (List (String × JsonVal))) :
    ((shutdown_post app data).2.2 = true ↔ bodyOk data = true) ∧
    (bodyOk data = false →
      (shutdown_post app data).2.1 = Response.httpError 400 ∧
      (shutdown_post app data).2.2 = false) ∧
    (bodyOk data = true →
      (shutdown_post app data).2.1
        = Response.finished 202 "Shutting down Hub" ∧
      (shutdown_post app data).1.cleanup_proxy
        = fieldVal data "proxy" app.cleanup_proxy ∧
      (shutdown_post app data).1.cleanup_servers
        = fieldVal data "servers" app.cleanup_servers) := by
  cases data with
  | none => simp [shutdown_post, bodyOk, fieldVal]
  | some d =>
    by_cases hd : d.isEmpty
    · simp [shutdown_post, bodyOk, fieldVal, hd]
    · cases hp : lookupField d "proxy" with
      | none =>
        cases hs : lookupField d "servers" with
        | none =>
          simp [shutdown_post, bodyOk, fieldOk, fieldVal, hd, hp, hs]
        | some w =>
          cases hw : inTrueFalse w <;>
            simp [shutdown_post, bodyOk, fieldOk, fieldVal, hd, hp, hs, hw]
      | some v =>
        cases hv : inTrueFalse v with
        | false =>
          simp [shutdown_post, bodyOk, fieldOk, fieldVal, hd, hp, hv]
        | true =>
          cases hs : lookupField d "servers" with
          | none =>
            simp [shutdown_post, bodyOk, fieldOk, fieldVal, hd, hp, hs, hv]
          | some w =>
            cases hw : inTrueFalse w <;>
              simp [shutdown_post, bodyOk, fieldOk, fieldVal, hd, hp, hs,
                    hv, hw]

end ShutdownHandler
